import Mathlib

/-!
A verification development for the SWF container envelope (swf/movie.py):
header signature parsing and serialization, compression selection, and the
envelope parse/save/export orchestration.

Byte streams are modelled as lists of byte values read from the front;
writes append to an output list. Python exceptions are modelled with an
error type and `Except` results.
-/

deriving instance DecidableEq for Except

namespace PySWF

/-- Errors surfaced by the envelope. Python exception classes map to
constructors: SWFHeaderException, TypeError, AttributeError, the
not-loaded and empty-document Exception cases of SWF.export, and reading
past the end of a stream. -/
inductive PyError where
  | swfHeaderException
  | typeError
  | attributeError
  | streamEnd
  | notLoaded
  | emptyDocument
  deriving DecidableEq, Repr

/-- Modelled from the spec: the Bitstream collaborator (swf/stream.py is
not under src). Read one unsigned byte from the front of the stream. -/
def readUI8 : List Nat → Option (Nat × List Nat)
  | [] => none
  | b :: rest => some (b, rest)

/-- Modelled from the spec: unsigned 32-bit little-endian read. -/
def readUI32 : List Nat → Option (Nat × List Nat)
  | b0 :: b1 :: b2 :: b3 :: rest =>
      some (b0 + 256 * b1 + 65536 * b2 + 16777216 * b3, rest)
  | _ => none

/-- Modelled from the spec: unsigned 16-bit little-endian read. -/
def readUI16 : List Nat → Option (Nat × List Nat)
  | b0 :: b1 :: rest => some (b0 + 256 * b1, rest)
  | _ => none

/-- Modelled from the spec: 8.8 fixed-point frame rate, two bytes
little-endian; the raw 16-bit value (256 times the rate) is kept. -/
def readFIXED8 : List Nat → Option (Nat × List Nat)
  | b0 :: b1 :: rest => some (b0 + 256 * b1, rest)
  | _ => none

/-- Modelled from the spec: write one byte to the output sink. -/
def writeUI8 (file : List Nat) (v : Nat) : List Nat :=
  file ++ [v]

/-- Modelled from the spec: write an unsigned 32-bit value little-endian. -/
def writeUI32 (file : List Nat) (v : Nat) : List Nat :=
  file ++ [v % 256, v / 256 % 256, v / 65536 % 256, v / 16777216 % 256]

/-- Modelled from the spec: the bits of one byte, most significant first. -/
def byteToBits (b : Nat) : List Bool :=
  [b / 128 % 2 == 1, b / 64 % 2 == 1, b / 32 % 2 == 1, b / 16 % 2 == 1,
   b / 8 % 2 == 1, b / 4 % 2 == 1, b / 2 % 2 == 1, b % 2 == 1]

/-- Value of a bit list read as an unsigned big-endian number. -/
def bitsToNat (bs : List Bool) : Nat :=
  bs.foldl (fun acc b => 2 * acc + (if b then 1 else 0)) 0

/-- Value of a bit list read as a twos-complement signed number. -/
def signedOfBits : List Bool → Int
  | [] => 0
  | true :: rest => (bitsToNat (true :: rest) : Int) - 2 ^ (rest.length + 1)
  | false :: rest => (bitsToNat (false :: rest) : Int)

/-- Rectangle record: four signed coordinates in twips. -/
structure Rect where
  xmin : Int
  xmax : Int
  ymin : Int
  ymax : Int
  deriving DecidableEq, Repr

/-- Modelled from the spec: variable-width bit-packed rectangle — a 5-bit
field width followed by four signed fields of that width, most significant
bit first, padded to a byte boundary (swf/stream.py is not under src). -/
def readRECT (s : List Nat) : Option (Rect × List Nat) :=
  match s with
  | [] => none
  | b0 :: _ =>
    let nbits := b0 / 8
    let nbytes := (5 + 4 * nbits + 7) / 8
    if s.length < nbytes then none
    else
      let bits := ((s.take nbytes).map byteToBits).flatten
      let field := fun i => signedOfBits ((bits.drop (5 + i * nbits)).take nbits)
      some ({ xmin := field 0, xmax := field 1, ymin := field 2, ymax := field 3 },
            s.drop nbytes)

/-- SWF header (class SWFHeader): version, compression flags, declared
file length, and the frame metadata that the envelope parse sets later
through the property setters (zero-valued before being set, since the
Python attributes do not exist until assigned). -/
structure SWFHeader where
  version : Nat
  compressed_zlib : Bool
  compressed_lzma : Bool
  file_length : Nat
  frame_size : Rect := ⟨0, 0, 0, 0⟩
  frame_rate : Nat := 0
  frame_count : Nat := 0
  deriving DecidableEq, Repr

/-- Tail of SWFHeader.__init__ after the signature check: read the
declared 32-bit file length and build the header record. -/
def finishHeader (zlib lzma : Bool) (version : Nat) (s : List Nat) :
    Except PyError (SWFHeader × List Nat) :=
  match readUI32 s with
  | none => Except.error PyError.streamEnd
  | some (len, s) =>
      Except.ok ({ version := version, compressed_zlib := zlib,
                   compressed_lzma := lzma, file_length := len }, s)

/-- SWFHeader.__init__ : read the three signature bytes and the version
byte, check the signature against the version bucket, set the compression
flags, then read the declared file length. The version ≤ 6 branch tests
a ≠ 0x43 exactly as source line 36 does (even though the comment above it
describes FWS / FWC / FWZ, whose first byte is 0x46). -/
def SWFHeader.parse (s : List Nat) : Except PyError (SWFHeader × List Nat) :=
  match readUI8 s with
  | none => Except.error PyError.streamEnd
  | some (a, s) =>
  match readUI8 s with
  | none => Except.error PyError.streamEnd
  | some (b, s) =>
  match readUI8 s with
  | none => Except.error PyError.streamEnd
  | some (c, s) =>
  match readUI8 s with
  | none => Except.error PyError.streamEnd
  | some (version, s) =>
  if version > 0x06 then
    if a ∉ [0x46, 0x43, 0x5A] ∨ b ≠ 0x57 ∨ c ≠ 0x53 then
      Except.error PyError.swfHeaderException
    else
      finishHeader (a == 0x43) (a == 0x5A) version s
  else
    if a ≠ 0x43 ∨ b ≠ 0x57 ∨ c ∉ [0x53, 0x43, 0x5A] then
      Except.error PyError.swfHeaderException
    else
      finishHeader (c == 0x43) (c == 0x5A) version s

/-- SWFHeader.save : only emits bytes when version > 6 — the marker byte
chosen by the compression flags, the version byte, and the 32-bit length.
The source method has no else branch, so nothing is written for
version ≤ 6. -/
def SWFHeader.save (h : SWFHeader) (file : List Nat) : List Nat :=
  if h.version > 0x06 then
    let file := if h.compressed_zlib then writeUI8 file 0x43
                else if h.compressed_lzma then writeUI8 file 0x5A
                else writeUI8 file 0x46
    let file := writeUI8 file h.version
    writeUI32 file h.file_length
  else
    file

/-- Derived predicate: compressed is the disjunction of the two flags. -/
def SWFHeader.compressed (h : SWFHeader) : Bool :=
  h.compressed_zlib || h.compressed_lzma

/-- Opaque tag record; tag internals are outside the envelope scope. -/
structure SWFTag where
  tagId : Nat
  deriving DecidableEq, Repr

/-- The envelope document (class SWF): chunk size, optional data stream,
optional header, ordered tag sequence. Modelled from the spec: the tag
container base class (swf/tag.py is not under src) contributes the tag
list, empty until tags are loaded. -/
structure SWF where
  chunk_size : Nat
  data : Option (List Nat)
  header : Option SWFHeader
  tags : List SWFTag
  deriving DecidableEq, Repr

/-- SWF.decompress_zlib : the call self.decompress(decompress_method,
self._data.f) passes three positional arguments to
decompress(decompress_method, input_buffer), a two-parameter function
declared without self (source line 217), so Python raises TypeError at
the call, before any byte is processed. -/
def SWF.decompress_zlib (_doc : SWF) : Except PyError (List Nat) :=
  Except.error PyError.typeError

/-- SWF.decompress_lzma : same three-against-two positional-argument
TypeError as decompress_zlib. -/
def SWF.decompress_lzma (_doc : SWF) : Except PyError (List Nat) :=
  Except.error PyError.typeError

/-- SWF.compress_zlib : self.compress(compress_method, input_buffer)
passes three positional arguments to the two-parameter compress declared
without self (source line 227), so Python raises TypeError at the call.
Were the loop ever reached, it also never invokes the encoder flush after
the last chunk. -/
def SWF.compress_zlib (_doc : SWF) (_input_buffer : List Nat) :
    Except PyError (List Nat) :=
  Except.error PyError.typeError

/-- SWF.compress_lzma : same three-against-two positional-argument
TypeError as compress_zlib. -/
def SWF.compress_lzma (_doc : SWF) (_input_buffer : List Nat) :
    Except PyError (List Nat) :=
  Except.error PyError.typeError

/-- SWF.parse : wrap the data, parse the header, decompress when the
header is compressed (both decompression helpers raise TypeError, see
above), then read the frame rectangle, frame rate and frame count into
the header. The parse_tags call is commented out in the source, so the
tag list is untouched. -/
def SWF.parse (doc : SWF) (data : List Nat) : Except PyError SWF :=
  match SWFHeader.parse data with
  | Except.error e => Except.error e
  | Except.ok (h, s) =>
  match (if h.compressed then
           (if h.compressed_zlib then doc.decompress_zlib
            else doc.decompress_lzma)
         else Except.ok s) with
  | Except.error e => Except.error e
  | Except.ok s =>
  match readRECT s with
  | none => Except.error PyError.streamEnd
  | some (rect, s) =>
  match readFIXED8 s with
  | none => Except.error PyError.streamEnd
  | some (rate, s) =>
  match readUI16 s with
  | none => Except.error PyError.streamEnd
  | some (count, s) =>
    let h2 : SWFHeader :=
      { h with frame_size := rect, frame_rate := rate, frame_count := count }
    Except.ok { doc with data := some s, header := some h2 }

/-- SWF.__init__ : the constructor receives a chunk_size argument but
assigns the literal 4096 to the chunk size field (source line 120), then
parses when a file was given. -/
def SWF.init (file : Option (List Nat)) (chunk_size : Nat) :
    Except PyError SWF :=
  let _ := chunk_size
  let doc : SWF := { chunk_size := 4096, data := file, header := none, tags := [] }
  match file with
  | none => Except.ok doc
  | some bytes => doc.parse bytes

/-- Modelled from the spec: the standard vector exporter collaborator
(swf/export.py is not under src); the render result records the document
and the flag it receives, since the rendering itself is out of scope. -/
def SVGExporter.render (doc : SWF) (force_stroke : Bool) : SWF × Bool :=
  (doc, force_stroke)

/-- SWF.export : default to the standard vector exporter, fail when no
data was ever parsed, fail when the tag sequence is empty, and otherwise
delegate, passing the document and force_stroke unchanged. -/
def SWF.export (doc : SWF) (exporter : Option (SWF → Bool → SWF × Bool))
    (force_stroke : Bool) : Except PyError (SWF × Bool) :=
  let e := match exporter with
           | none => SVGExporter.render
           | some f => f
  if doc.data.isNone then Except.error PyError.notLoaded
  else if doc.tags.length = 0 then Except.error PyError.emptyDocument
  else Except.ok (e doc force_stroke)

/-- SWF.save : write the header, then evaluate self._header.compressed()
— compressed is a property, so its bool value is invoked as a callable
and Python raises TypeError (source line 186) for every document, right
after the header bytes were written. The rest of the method (frame
fields, tags, chunked compression) is unreachable; it would also call
compressed_zlib() on a bool (line 198) and data_chunk.read on a bytes
value (line 206). A document that was never parsed has no header, and
None.save raises AttributeError first. -/
def SWF.save (doc : SWF) (file : List Nat) : Except PyError (List Nat) :=
  match doc.header with
  | none => Except.error PyError.attributeError
  | some h =>
      let _written := h.save file
      Except.error PyError.typeError

/-- Sample header that declares zlib compression at version 8 (parsed from
the signature 0x43 0x57 0x53). -/
def zlibHeader8 : SWFHeader :=
  { version := 8, compressed_zlib := true, compressed_lzma := false,
    file_length := 0 }

/-- Sample parsed document carrying `zlibHeader8`. -/
def zlibDoc : SWF :=
  { chunk_size := 4096, data := some [], header := some zlibHeader8, tags := [] }

/-- Freshly constructed document that was never parsed. -/
def emptyDoc : SWF :=
  { chunk_size := 4096, data := none, header := none, tags := [] }

/-- C1: the claim fails on the code. For version ≤ 6 the source requires
the FIRST byte to be 0x43 and reads the compression marker from the THIRD
byte, so the triple F W S (0x46 0x57 0x53) that the claim accepts is
rejected with SWFHeaderException, while C W S (0x43 0x57 0x53) is accepted
as uncompressed. -/
theorem c1_legacy_signature_bug :
    SWFHeader.parse [0x46, 0x57, 0x53, 0x06, 0, 0, 0, 0]
      = Except.error PyError.swfHeaderException
    ∧ SWFHeader.parse [0x43, 0x57, 0x53, 0x06, 0, 0, 0, 0]
      = Except.ok ({ version := 6, compressed_zlib := false,
                     compressed_lzma := false, file_length := 0 }, []) := by
  exact ⟨rfl, rfl⟩

/-- C3: the claim fails on the code — save on a document whose header
declares a compression kind raises TypeError, because line 186 invokes
the bool value of the compressed property as a callable. -/
theorem c3_save_raises_on_compressed :
    zlibHeader8.compressed = true
    ∧ SWF.save zlibDoc [] = Except.error PyError.typeError := by
  exact ⟨rfl, rfl⟩

/-- C4: the claim fails on the code — every chunked codec entry point
raises TypeError (three positional arguments against the two-parameter
compress and decompress that are declared without self), so no payload
round-trips; moreover the loop body, even if it were reachable, never
calls the encoder flush after the last chunk. -/
theorem c4_codec_entry_points_raise :
    SWF.compress_zlib zlibDoc [0] = Except.error PyError.typeError
    ∧ SWF.compress_lzma zlibDoc [0] = Except.error PyError.typeError
    ∧ SWF.decompress_zlib zlibDoc = Except.error PyError.typeError
    ∧ SWF.decompress_lzma zlibDoc = Except.error PyError.typeError := by
  exact ⟨rfl, rfl, rfl, rfl⟩

/-- C7: the claim fails on the code — the constructor ignores its
chunk_size argument and stores the literal 4096 on the instance. -/
theorem c7_chunk_size_ignored :
    (SWF.init none 17).map (fun d => d.chunk_size) = Except.ok 4096
    ∧ (SWF.init none 17).map (fun d => d.chunk_size) ≠ Except.ok 17 := by
  constructor
  · rfl
  · decide

/-- C8: for a header with version ≤ 6, save writes nothing — the output
sink is returned unchanged. -/
theorem c8_save_legacy_no_bytes (h : SWFHeader) (out : List Nat)
    (hv : h.version ≤ 6) : h.save out = out := by
  have hnv : ¬ (0x06 < h.version) := by omega
  simp [SWFHeader.save, hnv]

/-- C8 witness: a concrete version 6 header leaves the sink untouched. -/
theorem c8_save_legacy_witness :
    SWFHeader.save { version := 6, compressed_zlib := true,
                     compressed_lzma := false, file_length := 99 } [7, 8]
      = [7, 8] :=
  c8_save_legacy_no_bytes _ _ (by decide)

/-- Concrete C9 input: uncompressed version 8 signature, little-endian
length 13, a zero-width rectangle byte, an 8.8 frame rate of 12, and a
zero frame count. -/
def c9input : List Nat :=
  [0x46, 0x57, 0x53, 0x08, 13, 0, 0, 0, 0x00, 0x0C, 0x00, 0x00, 0x00]

/-- C9: on the concrete uncompressed version 8 input, construction parses
successfully, the header is uncompressed (both flags false) with version 8
and frame count 0, and export on the parsed but tagless document fails
with the empty-document error. -/
theorem c9_concrete_scenario :
    ((SWF.init (some c9input) 4096).map fun d =>
        (d.header.map fun h =>
           (h.compressed, h.compressed_zlib, h.compressed_lzma,
            h.version, h.frame_count),
         SWF.export d none false))
      = Except.ok (some (false, false, false, 8, 0),
                   Except.error PyError.emptyDocument) := by
  rfl

/-- C5: export gating — no data gives the not-loaded error, data with an
empty tag list gives the empty-document error, and otherwise export
delegates to the supplied exporter (the standard vector exporter when
none was given) passing the document and force_stroke unchanged. -/
theorem c5_export_gating (doc : SWF) (e : Option (SWF → Bool → SWF × Bool))
    (fs : Bool) :
    (doc.data = none → SWF.export doc e fs = Except.error PyError.notLoaded)
    ∧ (doc.data ≠ none → doc.tags = [] →
        SWF.export doc e fs = Except.error PyError.emptyDocument)
    ∧ (doc.data ≠ none → doc.tags ≠ [] →
        SWF.export doc e fs
          = Except.ok ((match e with
                        | none => SVGExporter.render
                        | some f => f) doc fs)) := by
  refine ⟨?_, ?_, ?_⟩
  · intro hd
    simp [SWF.export, hd]
  · intro hd ht
    rcases hx : doc.data with _ | s
    · exact absurd hx hd
    · simp [SWF.export, hx, ht]
  · intro hd ht
    rcases hx : doc.data with _ | s
    · exact absurd hx hd
    · simp [SWF.export, hx, List.length_eq_zero, ht]

/-- C5 witness: export on the freshly constructed, never parsed document
fails with the not-loaded error. -/
theorem c5_export_witness :
    SWF.export emptyDoc none false = Except.error PyError.notLoaded :=
  (c5_export_gating emptyDoc none false).1 rfl

/-- C6: for version > 6 the parser accepts exactly the triples
(marker, 0x57, 0x53) with marker among 0x46, 0x43, 0x5A — mapping the
marker to none, zlib, lzma respectively through the two flags — and
rejects every other triple with SWFHeaderException. -/
theorem c6_signature_v_gt_6 (a b c v l0 l1 l2 l3 : Nat) (rest : List Nat)
    (hv : 6 < v) :
    (((a = 0x46 ∨ a = 0x43 ∨ a = 0x5A) ∧ b = 0x57 ∧ c = 0x53) →
        SWFHeader.parse (a :: b :: c :: v :: l0 :: l1 :: l2 :: l3 :: rest)
          = Except.ok ({ version := v, compressed_zlib := a == 0x43,
                         compressed_lzma := a == 0x5A,
                         file_length := l0 + 256 * l1 + 65536 * l2 + 16777216 * l3 },
                       rest))
    ∧ (¬((a = 0x46 ∨ a = 0x43 ∨ a = 0x5A) ∧ b = 0x57 ∧ c = 0x53) →
        SWFHeader.parse (a :: b :: c :: v :: l0 :: l1 :: l2 :: l3 :: rest)
          = Except.error PyError.swfHeaderException) := by
  constructor
  · rintro ⟨ha, rfl, rfl⟩
    have hcond : ¬(a ∉ [(0x46 : Nat), 0x43, 0x5A] ∨ (0x57 : Nat) ≠ 0x57
        ∨ (0x53 : Nat) ≠ 0x53) := by
      push_neg
      exact ⟨by simpa using ha, rfl, rfl⟩
    simp only [SWFHeader.parse, readUI8]
    rw [if_pos hv, if_neg hcond]
    simp [finishHeader, readUI32]
  · intro hno
    have hcond : a ∉ [(0x46 : Nat), 0x43, 0x5A] ∨ b ≠ 0x57 ∨ c ≠ 0x53 := by
      by_contra hcon
      push_neg at hcon
      obtain ⟨hmem, hb, hcc⟩ := hcon
      exact hno ⟨by simpa using hmem, hb, hcc⟩
    simp only [SWFHeader.parse, readUI8]
    rw [if_pos hv, if_pos hcond]

/-- C6 witness: the lzma marker at version 13 parses with exactly the
lzma flag set. -/
theorem c6_signature_witness :
    SWFHeader.parse [0x5A, 0x57, 0x53, 0x0D, 0, 0, 0, 0]
      = Except.ok ({ version := 13, compressed_zlib := false,
                     compressed_lzma := true, file_length := 0 }, []) := by
  have h := (c6_signature_v_gt_6 0x5A 0x57 0x53 0x0D 0 0 0 0 [] (by decide)).1
    ⟨Or.inr (Or.inr rfl), rfl, rfl⟩
  exact h

/-- Auxiliary: writing a value back as little-endian 32-bit recovers the
four bytes it was assembled from. -/
theorem writeUI32_le (out : List Nat) (l0 l1 l2 l3 : Nat)
    (h0 : l0 < 256) (h1 : l1 < 256) (h2 : l2 < 256) (h3 : l3 < 256) :
    writeUI32 out (l0 + 256 * l1 + 65536 * l2 + 16777216 * l3)
      = out ++ [l0, l1, l2, l3] := by
  have e0 : (l0 + 256 * l1 + 65536 * l2 + 16777216 * l3) % 256 = l0 := by omega
  have e1 : (l0 + 256 * l1 + 65536 * l2 + 16777216 * l3) / 256 % 256 = l1 := by
    omega
  have e2 : (l0 + 256 * l1 + 65536 * l2 + 16777216 * l3) / 65536 % 256 = l2 := by
    omega
  have e3 : (l0 + 256 * l1 + 65536 * l2 + 16777216 * l3) / 16777216 % 256 = l3 := by
    omega
  simp [writeUI32, e0, e1, e2, e3]

/-- C2 counterexample: the valid version 8 header 0x46 0x57 0x53 0x08 with
length 1 parses, but saving the parsed header emits 0x46 0x08 followed by
the four length bytes — six bytes, not the eight parsed header bytes: the
0x57 and 0x53 signature bytes are not written back. -/
theorem c2_counterexample :
    (SWFHeader.parse [0x46, 0x57, 0x53, 0x08, 1, 0, 0, 0]).map
        (fun p => SWFHeader.save p.1 [])
      = Except.ok [0x46, 0x08, 1, 0, 0, 0]
    ∧ (SWFHeader.parse [0x46, 0x57, 0x53, 0x08, 1, 0, 0, 0]).map
        (fun p => SWFHeader.save p.1 [])
      ≠ Except.ok [0x46, 0x57, 0x53, 0x08, 1, 0, 0, 0] := by
  constructor
  · rfl
  · decide

/-- C2 amended: for a byte sequence whose first 8 bytes form a valid
header with version > 6, save writes back the first signature byte (the
marker selected by the compression kind), the version byte, and the
little-endian 32-bit length exactly as parsed; the second and third
signature bytes are not re-emitted. -/
theorem c2_roundtrip_marker (a b c v l0 l1 l2 l3 : Nat)
    (rest rest2 out : List Nat) (h : SWFHeader) (hv : 6 < v)
    (h0 : l0 < 256) (h1 : l1 < 256) (h2 : l2 < 256) (h3 : l3 < 256)
    (hok : SWFHeader.parse (a :: b :: c :: v :: l0 :: l1 :: l2 :: l3 :: rest)
             = Except.ok (h, rest2)) :
    h.save out = out ++ [a, v, l0, l1, l2, l3] := by
  simp only [SWFHeader.parse, readUI8] at hok
  rw [if_pos hv] at hok
  split at hok
  · simp at hok
  · rename_i hcond
    push_neg at hcond
    obtain ⟨hmem, hb, hc⟩ := hcond
    simp only [finishHeader, readUI32] at hok
    simp only [Except.ok.injEq, Prod.mk.injEq] at hok
    obtain ⟨hh, hr⟩ := hok
    subst hh
    have hmem3 : a = 0x46 ∨ a = 0x43 ∨ a = 0x5A := by simpa using hmem
    rcases hmem3 with rfl | rfl | rfl
    · simp only [SWFHeader.save]
      rw [if_pos hv]
      show writeUI32 (writeUI8 (writeUI8 out 0x46) v)
        (l0 + 256 * l1 + 65536 * l2 + 16777216 * l3) = _
      rw [writeUI32_le _ l0 l1 l2 l3 h0 h1 h2 h3]
      simp [writeUI8]
    · simp only [SWFHeader.save]
      rw [if_pos hv]
      show writeUI32 (writeUI8 (writeUI8 out 0x43) v)
        (l0 + 256 * l1 + 65536 * l2 + 16777216 * l3) = _
      rw [writeUI32_le _ l0 l1 l2 l3 h0 h1 h2 h3]
      simp [writeUI8]
    · simp only [SWFHeader.save]
      rw [if_pos hv]
      show writeUI32 (writeUI8 (writeUI8 out 0x5A) v)
        (l0 + 256 * l1 + 65536 * l2 + 16777216 * l3) = _
      rw [writeUI32_le _ l0 l1 l2 l3 h0 h1 h2 h3]
      simp [writeUI8]

/-- C2 witness: parsing the zlib header 0x43 0x57 0x53 0x08 with length
bytes 1 2 3 4 and saving writes back marker, version and the same four
length bytes. -/
theorem c2_roundtrip_witness :
    SWFHeader.save
        { version := 8, compressed_zlib := true, compressed_lzma := false,
          file_length := 1 + 256 * 2 + 65536 * 3 + 16777216 * 4 } []
      = [0x43, 8, 1, 2, 3, 4] := by
  have h := c2_roundtrip_marker 0x43 0x57 0x53 8 1 2 3 4 [] [] []
    { version := 8, compressed_zlib := true, compressed_lzma := false,
      file_length := 1 + 256 * 2 + 65536 * 3 + 16777216 * 4 }
    (by decide) (by decide) (by decide) (by decide) (by decide) rfl
  exact h

/-- Auxiliary inversion: a successful header parse sets the flags from a
single marker byte, so they can never both be true. -/
theorem parse_flags_exclusive (s rest : List Nat) (h : SWFHeader)
    (hok : SWFHeader.parse s = Except.ok (h, rest)) :
    h.compressed_zlib = true → h.compressed_lzma = false := by
  rcases s with _ | ⟨a, s⟩
  · simp [SWFHeader.parse, readUI8] at hok
  rcases s with _ | ⟨b, s⟩
  · simp [SWFHeader.parse, readUI8] at hok
  rcases s with _ | ⟨c, s⟩
  · simp [SWFHeader.parse, readUI8] at hok
  rcases s with _ | ⟨v, s⟩
  · simp [SWFHeader.parse, readUI8] at hok
  simp only [SWFHeader.parse, readUI8] at hok
  split at hok <;> split at hok
  · simp at hok
  · simp only [finishHeader] at hok
    split at hok
    · simp at hok
    · simp only [Except.ok.injEq, Prod.mk.injEq] at hok
      obtain ⟨hh, -⟩ := hok
      subst hh
      intro hz
      simp only [beq_iff_eq] at hz
      subst hz
      rfl
  · simp at hok
  · simp only [finishHeader] at hok
    split at hok
    · simp at hok
    · simp only [Except.ok.injEq, Prod.mk.injEq] at hok
      obtain ⟨hh, -⟩ := hok
      subst hh
      intro hz
      simp only [beq_iff_eq] at hz
      subst hz
      rfl

/-- C10: for every successfully parsed header the two compression flags
are never both true, the derived compressed predicate is exactly the
disjunction of the flags, and the envelope parse carries the flags into
its resulting header unchanged (only the frame metadata is updated after
the signature is decided). -/
theorem c10_flags_invariant (s rest : List Nat) (h : SWFHeader)
    (hok : SWFHeader.parse s = Except.ok (h, rest)) :
    ¬(h.compressed_zlib = true ∧ h.compressed_lzma = true)
    ∧ (h.compressed = true ↔ (h.compressed_zlib = true ∨ h.compressed_lzma = true))
    ∧ (∀ (doc doc2 : SWF) (h2 : SWFHeader),
         SWF.parse doc s = Except.ok doc2 → doc2.header = some h2 →
         h2.compressed_zlib = h.compressed_zlib
         ∧ h2.compressed_lzma = h.compressed_lzma) := by
  refine ⟨?_, ?_, ?_⟩
  · rintro ⟨hz, hl⟩
    have hfalse := parse_flags_exclusive s rest h hok hz
    rw [hfalse] at hl
    exact absurd hl (by decide)
  · simp [SWFHeader.compressed]
  · intro doc doc2 h2 hp hh2
    simp only [SWF.parse, hok, SWF.decompress_zlib, SWF.decompress_lzma] at hp
    split at hp
    · simp at hp
    · split at hp
      · simp at hp
      · split at hp
        · simp at hp
        · split at hp
          · simp at hp
          · simp only [Except.ok.injEq] at hp
            subst hp
            simp only [Option.some.injEq] at hh2
            subst hh2
            exact ⟨rfl, rfl⟩

/-- C10 witness: the zlib flag set by parsing 0x43 0x57 0x53 0x08 excludes
the lzma flag. -/
theorem c10_flags_witness :
    ¬(zlibHeader8.compressed_zlib = true ∧ zlibHeader8.compressed_lzma = true) :=
  (c10_flags_invariant [0x43, 0x57, 0x53, 0x08, 0, 0, 0, 0] [] zlibHeader8
    (by rfl)).1

end PySWF
